import Mathlib

/-!
Verification of `chbreak.c` (a chroot-escape demonstration program).

The program is one linear procedure (`main`), modelled as a function
`run : Env → List Ev × Outcome`.  `Env` holds the result every system call
would return (the program only ever observes results, never the kernel
state directly); `Ev` is the trace of system calls, stream writes and
stream flushes the program performs in order; `Outcome` is how the process
ends.  Each section of `main` is a separate definition (`prepPhase`,
`openDotPhase`, `chrootPhase`, `fchdirPhase`, `climbPhase`, `verifyPhase`,
`listingPhase`, `shellPhase`) translated line by line from the source;
each returns the events it performs, so the trace of a run is the
concatenation of the phase traces in program order.

Two small auxiliary models give operating-system semantics where a claim
is about filesystem state rather than about results the program sees:
`prepare` (the staging-directory step run against an actual filesystem
entry, with POSIX stat/mkdir semantics) and `climb`/`parentDir` (the
`chdir("..")` loop run against an actual working-directory path, with the
POSIX rule that the parent of the root is the root).
-/

/-- `struct stat` restricted to the fields the program reads:
`st_dev`, `st_ino`, and `S_ISDIR(st_mode)`. -/
structure StatBuf where
  st_dev : Nat
  st_ino : Nat
  st_mode_isdir : Bool
deriving DecidableEq, Repr

/-- The errno values relevant to the program (plus a catch-all). -/
inductive Errno
  | ENOENT
  | EPERM
  | EACCES
  | EBADF
deriving DecidableEq, Repr

/-- `strerror(3)` on the modelled errno values (standard glibc texts). -/
def strerror : Errno → String
  | .ENOENT => "No such file or directory"
  | .EPERM => "Operation not permitted"
  | .EACCES => "Permission denied"
  | .EBADF => "Bad file descriptor"

/-- `#define TEMP_DIR "waterbuffalo"` (chbreak.c line 48). -/
def TEMP_DIR : String := "waterbuffalo"

/-- `#define NEED_FCHDIR 0` (chbreak.c line 46): the macro's value. -/
def NEED_FCHDIR : Nat := 0

/-- The source guards the working-directory branch with `#ifdef NEED_FCHDIR`
(lines 54, 85, 113), which tests whether the macro is defined, not its
value; since line 46 defines it (to 0), the branch is compiled in. -/
def NEED_FCHDIR_defined : Bool := true

/-- Results of every system call the program can make, in program order.
The program reads these; fields it ignores (the 1024 `chdir("..")` results
and the `chroot(".")` result, lines 146-149) are recorded here so that
theorems can speak about runs in which those calls fail. -/
structure Env where
  statRoot1 : Except Errno StatBuf
  statTmp : Except Errno StatBuf
  mkdirTmp : Except Errno Unit
  openDot : Except Errno Nat
  chrootTmp : Except Errno Unit
  euid : Nat
  fchdirRes : Except Errno Unit
  chdirUpOk : Nat → Bool
  chrootDotOk : Bool
  statRoot2 : Except Errno StatBuf
  opendirRoot : Except Errno (List String)
  args : List String
  execRes : Except Errno Unit

/-- Trace events: system calls made, stream writes, stream flushes. -/
inductive Ev
  | sysStatRoot1
  | sysStatTmp
  | sysMkdir
  | sysOpenDot
  | sysChrootTmp
  | sysGeteuid
  | sysFchdir
  | sysClose
  | sysChdirUp
  | sysChrootDot
  | sysStatRoot2
  | sysOpendirRoot
  | sysClosedir
  | sysExec
  | writeErr (s : String)
  | writeOut (s : String)
  | flushOut
  | flushErr
deriving DecidableEq, Repr

/-- How the process ends: `exit(code)` / `return code` from `main`, or the
process image was replaced by the shell. -/
inductive Outcome
  | exited (code : Nat)
  | execed
deriving DecidableEq, Repr

/-- `fprintf(stderr, ...); exit(1);` after the events `t`. -/
def fatal (t : List Ev) (msg : String) : List Ev × Outcome :=
  (t ++ [Ev.writeErr msg], Outcome.exited 1)

/-- The argument test of chbreak.c line 179:
`!argv[0] || !argv[1] || 0 != strcmp(argv[1], "--no-shell")`, with C's
short-circuit `||` rendered as nested matches (later operands are reached
only when earlier ones are false).  `true` means the shell handoff runs. -/
def wantShell (args : List String) : Bool :=
  match args.get? 0 with
  | none => true
  | some _ =>
    match args.get? 1 with
    | none => true
    | some a1 => decide (a1 ≠ "--no-shell")

/-- chbreak.c lines 179-186: optionally exec an interactive shell. -/
def shellPhase (env : Env) : List Ev × Outcome :=
  if wantShell env.args then
    match env.execRes with
    | Except.error e =>
      fatal [Ev.writeErr "Running interactive shell outside chroot.\n", Ev.sysExec]
        ("Failed to exec - " ++ strerror e ++ "\n")
    | Except.ok _ =>
      ([Ev.writeErr "Running interactive shell outside chroot.\n", Ev.sysExec], Outcome.execed)
  else
    ([], Outcome.exited 0)

/-- chbreak.c lines 166-178: list the real root directory on stdout. -/
def listingPhase (env : Env) : List Ev × Outcome :=
  match env.opendirRoot with
  | Except.error e => fatal [Ev.sysOpendirRoot] ("Failed to opendir /: " ++ strerror e ++ "\n")
  | Except.ok entries =>
    let r := shellPhase env
    ([Ev.sysOpendirRoot, Ev.writeOut "dir /:\n"]
      ++ entries.map (fun n => Ev.writeOut (n ++ "\n")) ++ [Ev.sysClosedir] ++ r.1, r.2)

/-- chbreak.c lines 151-161: flush stdout, re-stat "/", compare the two
identity snapshots, and report success or failure of the escape. -/
def verifyPhase (env : Env) (sbuf1 : StatBuf) : List Ev × Outcome :=
  match env.statRoot2 with
  | Except.error e =>
    fatal [Ev.flushOut, Ev.sysStatRoot2] ("Failed to stat2 /: " ++ strerror e ++ "\n")
  | Except.ok sbuf2 =>
    if sbuf1.st_dev = sbuf2.st_dev ∧ sbuf1.st_ino = sbuf2.st_ino then
      fatal [Ev.flushOut, Ev.sysStatRoot2] "Breaking out of the chroot did not work.\n"
    else
      let r := listingPhase env
      ([Ev.flushOut, Ev.sysStatRoot2, Ev.writeErr "Broken out of the chroot.\n", Ev.flushErr]
        ++ r.1, r.2)

/-- chbreak.c lines 146-149: `for(x=0;x<1024;x++) chdir("..");` then
`chroot(".");`.  The source discards both return values, so `env.chdirUpOk`
and `env.chrootDotOk` are never consulted and execution always continues
into the verification. -/
def climbPhase (env : Env) (sbuf1 : StatBuf) : List Ev × Outcome :=
  let r := verifyPhase env sbuf1
  (List.replicate 1024 Ev.sysChdirUp ++ [Ev.sysChrootDot] ++ r.1, r.2)

/-- chbreak.c lines 113-132 (`#ifdef NEED_FCHDIR`): restore the working
directory from the saved handle, then close the handle. -/
def fchdirPhase (env : Env) (sbuf1 : StatBuf) : List Ev × Outcome :=
  if NEED_FCHDIR_defined then
    match env.fchdirRes with
    | Except.error e => fatal [Ev.sysFchdir] ("Failed to fchdir - " ++ strerror e ++ "\n")
    | Except.ok _ =>
      let r := climbPhase env sbuf1
      ([Ev.sysFchdir, Ev.sysClose] ++ r.1, r.2)
  else
    climbPhase env sbuf1

/-- chbreak.c lines 103-111: `chroot(TEMP_DIR)`; on failure print the
error, and when `geteuid() != 0` also the not-running-as-root hint. -/
def chrootPhase (env : Env) (sbuf1 : StatBuf) : List Ev × Outcome :=
  match env.chrootTmp with
  | Except.error e =>
    if env.euid ≠ 0 then
      ([Ev.sysChrootTmp,
        Ev.writeErr ("Failed to chroot to " ++ TEMP_DIR ++ " - " ++ strerror e ++ "\n"),
        Ev.sysGeteuid,
        Ev.writeErr "Not running as root. Breaking out of chroot works as root.\n"],
       Outcome.exited 1)
    else
      ([Ev.sysChrootTmp,
        Ev.writeErr ("Failed to chroot to " ++ TEMP_DIR ++ " - " ++ strerror e ++ "\n"),
        Ev.sysGeteuid],
       Outcome.exited 1)
  | Except.ok _ =>
    let r := fchdirPhase env sbuf1
    (Ev.sysChrootTmp :: r.1, r.2)

/-- chbreak.c lines 85-98 (`#ifdef NEED_FCHDIR`): `open(".", O_RDONLY)`. -/
def openDotPhase (env : Env) (sbuf1 : StatBuf) : List Ev × Outcome :=
  if NEED_FCHDIR_defined then
    match env.openDot with
    | Except.error e =>
      fatal [Ev.sysOpenDot] ("Failed to open \".\" for reading - " ++ strerror e ++ "\n")
    | Except.ok _ =>
      let r := chrootPhase env sbuf1
      (Ev.sysOpenDot :: r.1, r.2)
  else
    chrootPhase env sbuf1

/-- chbreak.c lines 68-83: ensure TEMP_DIR exists and is a directory. -/
def prepPhase (env : Env) (sbuf1 : StatBuf) : List Ev × Outcome :=
  match env.statTmp with
  | Except.error e =>
    if e = Errno.ENOENT then
      match env.mkdirTmp with
      | Except.error e2 =>
        fatal [Ev.sysStatTmp, Ev.sysMkdir]
          ("Failed to create " ++ TEMP_DIR ++ " - " ++ strerror e2 ++ "\n")
      | Except.ok _ =>
        let r := openDotPhase env sbuf1
        ([Ev.sysStatTmp, Ev.sysMkdir] ++ r.1, r.2)
    else
      fatal [Ev.sysStatTmp] ("Failed to stat " ++ TEMP_DIR ++ " - " ++ strerror e ++ "\n")
  | Except.ok sbuf =>
    if sbuf.st_mode_isdir then
      let r := openDotPhase env sbuf1
      (Ev.sysStatTmp :: r.1, r.2)
    else
      fatal [Ev.sysStatTmp] ("Error - " ++ TEMP_DIR ++ " is not a directory!\n")

/-- chbreak.c `main`, lines 52-187: stat "/" for the baseline identity
snapshot, then run the remaining phases in order.  The first component is
the full event trace of the run, the second how the process ends. -/
def run (env : Env) : List Ev × Outcome :=
  match env.statRoot1 with
  | Except.error e => fatal [Ev.sysStatRoot1] ("Failed to stat1 /: " ++ strerror e ++ "\n")
  | Except.ok sbuf1 =>
    let r := prepPhase env sbuf1
    (Ev.sysStatRoot1 :: r.1, r.2)

/-! ### Filesystem-level model of the staging-directory step (lines 68-83)

The run model above sees only system-call results.  To state what the
preparation step does to the filesystem itself, the possible states of the
path `TEMP_DIR` are modelled, with the POSIX semantics of `stat` (fails
with `ENOENT` exactly when the path is absent, otherwise reports whether
the entry is a directory) and of `mkdir` on an absent path (creates a
directory there). -/

/-- The state of the path `TEMP_DIR` in the filesystem. -/
inductive TmpEntry
  | absent
  | nondir
  | dir
deriving DecidableEq, Repr

/-- POSIX `stat(TEMP_DIR, &sbuf)` as determined by the filesystem state:
`ENOENT` when absent, otherwise a buffer whose `S_ISDIR` bit reflects the
entry kind. -/
def statTmpEntry : TmpEntry → Except Errno StatBuf
  | TmpEntry.absent => Except.error Errno.ENOENT
  | TmpEntry.nondir => Except.ok ⟨0, 0, false⟩
  | TmpEntry.dir => Except.ok ⟨0, 0, true⟩

/-- chbreak.c lines 68-83 run against a filesystem state: the branch
structure is the source's; `mkdir(TEMP_DIR, 0755)` on an absent path
leaves a directory there.  Returns the resulting state of the path, or
the fatal diagnostic. -/
def prepare (fs : TmpEntry) : Except String TmpEntry :=
  match statTmpEntry fs with
  | Except.error e =>
    if e = Errno.ENOENT then
      Except.ok TmpEntry.dir
    else
      Except.error ("Failed to stat " ++ TEMP_DIR ++ " - " ++ strerror e ++ "\n")
  | Except.ok sbuf =>
    if sbuf.st_mode_isdir then Except.ok fs
    else Except.error ("Error - " ++ TEMP_DIR ++ " is not a directory!\n")

/-! ### Filesystem-level model of the climb loop (lines 146-148)

A working directory is a list of path components below the true root
(`[]` is the true root).  `chdir("..")` moves to the parent; the POSIX
rule that `..` in the root directory is the root itself (quoted in the
source comment, lines 138-140) makes the parent of `[]` equal `[]`. -/

/-- The parent directory; the parent of the true root is the true root. -/
def parentDir (d : List String) : List String := d.dropLast

/-- `for(x=0;x<n;x++) chdir("..");` run against a working directory. -/
def climb : Nat → List String → List String
  | 0, d => d
  | n + 1, d => climb n (parentDir d)

/-! ### Buffered-stream bookkeeping for the flush claims

`pendingAtExec w f t p` walks the trace `t` with current unflushed-data
flag `p`; a write (per `w`) sets it, a flush (per `f`) clears it, and at
the first `sysExec` event the flag is returned (`none` when the trace
never reaches an exec). -/

def pendingAtExec (w f : Ev → Bool) : List Ev → Bool → Option Bool
  | [], _ => none
  | e :: rest, p =>
    if e = Ev.sysExec then some p
    else pendingAtExec w f rest (if w e then true else if f e then false else p)

def isWriteOut : Ev → Bool
  | Ev.writeOut _ => true
  | _ => false

def isFlushOut : Ev → Bool
  | Ev.flushOut => true
  | _ => false

def isWriteErr : Ev → Bool
  | Ev.writeErr _ => true
  | _ => false

def isFlushErr : Ev → Bool
  | Ev.flushErr => true
  | _ => false

/-- Whether stdout holds unflushed data when the exec is reached. -/
def bufferedOutAtExec (t : List Ev) : Option Bool :=
  pendingAtExec isWriteOut isFlushOut t false

/-- Whether stderr holds unflushed data when the exec is reached. -/
def bufferedErrAtExec (t : List Ev) : Option Bool :=
  pendingAtExec isWriteErr isFlushErr t false

/-! ### Concrete environments for witnesses and counterexamples -/

/-- A run in which every system call succeeds, the post-escape identity of
"/" differs from the baseline, and no argument is given. -/
def envOk : Env where
  statRoot1 := Except.ok ⟨23, 5, true⟩
  statTmp := Except.ok ⟨23, 8, true⟩
  mkdirTmp := Except.ok ()
  openDot := Except.ok 3
  chrootTmp := Except.ok ()
  euid := 0
  fchdirRes := Except.ok ()
  chdirUpOk := fun _ => true
  chrootDotOk := true
  statRoot2 := Except.ok ⟨23, 2, true⟩
  opendirRoot := Except.ok ["bin", "etc", "var"]
  args := []
  execRes := Except.ok ()

/-- As `envOk`, but every `chdir("..")` call and the `chroot(".")` call
fail. -/
def envChdirFail : Env :=
  { envOk with chdirUpOk := fun _ => false, chrootDotOk := false }

/-- A run in which `chroot(TEMP_DIR)` fails with `EPERM` while the
effective user id is 0 (the root-equivalent capability is absent even
though the uid is root, as in a capability-restricted container). -/
def envPermRoot : Env :=
  { envOk with chrootTmp := Except.error Errno.EPERM, euid := 0 }

/-- A run in which the staging path exists but is a regular file. -/
def envNondir : Env :=
  { envOk with statTmp := Except.ok ⟨23, 8, false⟩ }

/-- The environment of `envOk` with the initial `stat("/")` failing. -/
def envStat1Fail : Env :=
  { envOk with statRoot1 := Except.error Errno.EBADF }

/-- Every diagnostic the program prints for a failed system call: each
names the failed operation and appends the `strerror` text of the errno
(the not-a-directory collision message, printed without an errno, is in
the same style).  Used to state that the escape-ineffective diagnostic is
distinct from all of them. -/
def sysFailMsgs (e : Errno) : List String :=
  ["Failed to stat1 /: " ++ strerror e ++ "\n",
   "Failed to stat " ++ TEMP_DIR ++ " - " ++ strerror e ++ "\n",
   "Failed to create " ++ TEMP_DIR ++ " - " ++ strerror e ++ "\n",
   "Failed to open \".\" for reading - " ++ strerror e ++ "\n",
   "Failed to chroot to " ++ TEMP_DIR ++ " - " ++ strerror e ++ "\n",
   "Failed to fchdir - " ++ strerror e ++ "\n",
   "Failed to stat2 /: " ++ strerror e ++ "\n",
   "Failed to opendir /: " ++ strerror e ++ "\n",
   "Failed to exec - " ++ strerror e ++ "\n",
   "Error - " ++ TEMP_DIR ++ " is not a directory!\n"]

/-! ### Helper lemmas -/

theorem wantShell_eq_false_iff (args : List String) :
    wantShell args = false ↔ args.get? 1 = some "--no-shell" := by
  match args with
  | [] => simp [wantShell]
  | [a] => simp [wantShell]
  | a :: b :: rest => simp [wantShell]

theorem wantShell_of_get1_none (args : List String) (h : args.get? 1 = none) :
    wantShell args = true := by
  match args with
  | [] => rfl
  | [a] => rfl
  | a :: b :: rest => simp at h

theorem climb_nil (n : Nat) : climb n [] = [] := by
  induction n with
  | zero => rfl
  | succ n ih => simpa [climb, parentDir] using ih

theorem climb_eq_nil_of_length_le (n : Nat) :
    ∀ d : List String, d.length ≤ n → climb n d = [] := by
  induction n with
  | zero =>
    intro d h
    have : d = [] := List.length_eq_zero.mp (Nat.le_zero.mp h)
    simp [this, climb]
  | succ n ih =>
    intro d h
    show climb n (parentDir d) = []
    apply ih
    simp only [parentDir, List.length_dropLast]
    omega

/-! ### Claim theorems -/

/-- C3: the staging-directory preparation creates the directory when the
path is absent; fails fatally before any confinement change when the path
exists but is not a directory; succeeds without modification when the path
is already a directory; and is idempotent, so a second run against the
resulting state never fails and never alters the directory. -/
theorem staging_prep_behavior :
    prepare TmpEntry.absent = Except.ok TmpEntry.dir
  ∧ (∃ msg, prepare TmpEntry.nondir = Except.error msg)
  ∧ prepare TmpEntry.dir = Except.ok TmpEntry.dir
  ∧ (∀ fs fs2, prepare fs = Except.ok fs2 → prepare fs2 = Except.ok fs2)
  ∧ (∀ env s1 b, env.statRoot1 = Except.ok s1 → env.statTmp = Except.ok b →
      b.st_mode_isdir = false →
      (run env).2 = Outcome.exited 1 ∧ Ev.sysChrootTmp ∉ (run env).1 ∧
      Ev.sysChrootDot ∉ (run env).1) := by
  refine ⟨rfl, ⟨_, rfl⟩, rfl, ?_, ?_⟩
  · intro fs fs2 h
    cases fs <;> simp [prepare, statTmpEntry] at h <;> subst h <;> rfl
  · intro env s1 b h1 h2 hb
    simp [run, prepPhase, fatal, h1, h2, hb]

/-- C3 witness: concrete instances of the idempotence clause (applied to
the state left by a first run on an absent path) and of the
collision clause (a run whose staging path is a regular file). -/
theorem staging_prep_behavior_witness :
    prepare TmpEntry.dir = Except.ok TmpEntry.dir ∧
    (run envNondir).2 = Outcome.exited 1 ∧ Ev.sysChrootTmp ∉ (run envNondir).1 := by
  refine ⟨staging_prep_behavior.2.2.2.1 TmpEntry.absent TmpEntry.dir rfl, ?_, ?_⟩
  · exact (staging_prep_behavior.2.2.2.2 envNondir ⟨23, 5, true⟩ ⟨23, 8, false⟩ rfl rfl rfl).1
  · exact (staging_prep_behavior.2.2.2.2 envNondir ⟨23, 5, true⟩ ⟨23, 8, false⟩ rfl rfl rfl).2.1

/-- C5: changing to the parent directory is a no-op at the true root, so
climbing at least as many times as the actual depth always ends at the
true root; in particular, from any working directory of depth at most 2
(a depth-1 nested boundary), 1024 parent changes and 2 parent changes
yield the same final working directory. -/
theorem climb_overshoot_noop :
    parentDir [] = []
  ∧ (∀ n, climb n [] = [])
  ∧ (∀ d : List String, d.length ≤ 2 → climb 1024 d = climb 2 d) := by
  refine ⟨rfl, climb_nil, ?_⟩
  intro d h
  rw [climb_eq_nil_of_length_le 1024 d (le_trans h (by norm_num)),
      climb_eq_nil_of_length_le 2 d h]

/-- C5 witness: the depth-1 working directory `["jail"]`. -/
theorem climb_overshoot_noop_witness :
    (["jail"] : List String).length ≤ 2 ∧ climb 1024 ["jail"] = climb 2 ["jail"] :=
  ⟨by decide, climb_overshoot_noop.2.2 ["jail"] (by decide)⟩

set_option maxRecDepth 10000 in
/-- C10: the argument guard of line 179 is well defined with a null
`argv[0]` or null `argv[1]` (the short-circuit `||` never dereferences a
null pointer; in the embedding the guard is a total function on the
argument list), and in both cases the shell-handoff branch is taken. -/
theorem null_argv_guard_shell_branch :
    wantShell [] = true
  ∧ (∀ args : List String, args.get? 0 = none → wantShell args = true)
  ∧ (∀ args : List String, args.get? 1 = none → wantShell args = true)
  ∧ (∀ env s1 b fd s2 entries,
      env.statRoot1 = Except.ok s1 → env.statTmp = Except.ok b →
      b.st_mode_isdir = true → env.openDot = Except.ok fd →
      env.chrootTmp = Except.ok () → env.fchdirRes = Except.ok () →
      env.statRoot2 = Except.ok s2 →
      ¬(s1.st_dev = s2.st_dev ∧ s1.st_ino = s2.st_ino) →
      env.opendirRoot = Except.ok entries →
      env.args.get? 1 = none →
      Ev.sysExec ∈ (run env).1) := by
  refine ⟨rfl, ?_, wantShell_of_get1_none, ?_⟩
  · intro args h
    cases args with
    | nil => rfl
    | cons a as => simp at h
  · intro env s1 b fd s2 entries h1 h2 hb h3 h4 h5 h6 hne h7 hargs
    have hw : wantShell env.args = true := wantShell_of_get1_none env.args hargs
    cases he : env.execRes <;>
      simp [-List.reduceReplicate, run, prepPhase, openDotPhase, chrootPhase, fchdirPhase, climbPhase, verifyPhase,
            listingPhase, shellPhase, fatal, NEED_FCHDIR_defined,
            h1, h2, hb, h3, h4, h5, h6, hne, h7, hw, he]

/-- C10 witness: a run with an empty argument vector reaches the exec. -/
theorem null_argv_guard_shell_branch_witness :
    Ev.sysExec ∈ (run envOk).1 :=
  null_argv_guard_shell_branch.2.2.2 envOk ⟨23, 5, true⟩ ⟨23, 8, true⟩ 3 ⟨23, 2, true⟩
    ["bin", "etc", "var"] rfl rfl rfl rfl rfl rfl rfl (by decide) rfl rfl

set_option maxRecDepth 10000 in
/-- C1 counterexample: in the run `envChdirFail` every one of the 1024
`chdir("..")` calls fails and the `chroot(".")` call fails, yet the
program does not terminate with a non-zero status: it continues through
the verification and ends in the shell exec, refuting the claim that the
parent-directory changes of step 6 and the re-confinement of step 7 are
fatal on failure. -/
theorem climb_reconfine_failures_ignored_cex :
    envChdirFail.chdirUpOk 0 = false ∧ envChdirFail.chrootDotOk = false ∧
    (run envChdirFail).2 = Outcome.execed ∧ Ev.sysExec ∈ (run envChdirFail).1 :=
  ⟨rfl, rfl, rfl, by decide⟩

set_option maxRecDepth 10000 in
/-- C1 (amended): every privileged operation whose result the program
checks — the initial status query of "/", the staging status query, the
staging directory creation, the nested confinement set, the
working-directory restore, and the post-escape status query of "/" — is
fatal immediately on error, with no retry (the next system call of the
sequence never happens); but the results of the 1024 parent-directory
changes of step 6 and of the re-confinement to "." of step 7 are
discarded: the run is identical whatever those calls return, and their
failure is caught only by the identity verification. -/
theorem checked_calls_fatal_climb_ignored :
    (∀ env e, env.statRoot1 = Except.error e →
      (run env).2 = Outcome.exited 1 ∧ Ev.sysStatTmp ∉ (run env).1)
  ∧ (∀ env s1 e, env.statRoot1 = Except.ok s1 → env.statTmp = Except.error e →
      e ≠ Errno.ENOENT →
      (run env).2 = Outcome.exited 1 ∧ Ev.sysOpenDot ∉ (run env).1)
  ∧ (∀ env s1 e2, env.statRoot1 = Except.ok s1 →
      env.statTmp = Except.error Errno.ENOENT → env.mkdirTmp = Except.error e2 →
      (run env).2 = Outcome.exited 1 ∧ Ev.sysOpenDot ∉ (run env).1)
  ∧ (∀ env s1 b fd e, env.statRoot1 = Except.ok s1 → env.statTmp = Except.ok b →
      b.st_mode_isdir = true → env.openDot = Except.ok fd →
      env.chrootTmp = Except.error e →
      (run env).2 = Outcome.exited 1 ∧ Ev.sysFchdir ∉ (run env).1)
  ∧ (∀ env s1 b fd e, env.statRoot1 = Except.ok s1 → env.statTmp = Except.ok b →
      b.st_mode_isdir = true → env.openDot = Except.ok fd →
      env.chrootTmp = Except.ok () → env.fchdirRes = Except.error e →
      (run env).2 = Outcome.exited 1 ∧ Ev.sysChdirUp ∉ (run env).1 ∧
      Ev.sysChrootDot ∉ (run env).1)
  ∧ (∀ env s1 b fd e, env.statRoot1 = Except.ok s1 → env.statTmp = Except.ok b →
      b.st_mode_isdir = true → env.openDot = Except.ok fd →
      env.chrootTmp = Except.ok () → env.fchdirRes = Except.ok () →
      env.statRoot2 = Except.error e →
      (run env).2 = Outcome.exited 1 ∧ Ev.sysOpendirRoot ∉ (run env).1)
  ∧ (∀ env g c, run { env with chdirUpOk := g, chrootDotOk := c } = run env) := by
  refine ⟨?_, ?_, ?_, ?_, ?_, ?_, fun env g c => rfl⟩
  · intro env e h1
    simp [run, fatal, h1]
  · intro env s1 e h1 h2 he
    simp [run, prepPhase, fatal, h1, h2, he]
  · intro env s1 e2 h1 h2 h2b
    simp [run, prepPhase, fatal, h1, h2, h2b]
  · intro env s1 b fd e h1 h2 hb h3 h4
    rcases eq_or_ne env.euid 0 with he | he <;>
      simp [run, prepPhase, openDotPhase, chrootPhase, fatal, NEED_FCHDIR_defined,
            h1, h2, hb, h3, h4, he]
  · intro env s1 b fd e h1 h2 hb h3 h4 h5
    simp [run, prepPhase, openDotPhase, chrootPhase, fchdirPhase, fatal,
          NEED_FCHDIR_defined, h1, h2, hb, h3, h4, h5]
  · intro env s1 b fd e h1 h2 hb h3 h4 h5 h6
    simp [-List.reduceReplicate, run, prepPhase, openDotPhase, chrootPhase, fchdirPhase, climbPhase, verifyPhase,
          fatal, NEED_FCHDIR_defined, h1, h2, hb, h3, h4, h5, h6, List.mem_replicate]

/-- C1 amended witness: a run whose staging `stat` fails with `EACCES` is
fatal, and a concrete run is unchanged when the climb and re-confinement
results are flipped to failures. -/
theorem checked_calls_fatal_climb_ignored_witness :
    (run { envOk with statTmp := Except.error Errno.EACCES }).2 = Outcome.exited 1 ∧
    run { envOk with chdirUpOk := fun _ => false, chrootDotOk := false } = run envOk := by
  refine ⟨?_, checked_calls_fatal_climb_ignored.2.2.2.2.2.2 envOk (fun _ => false) false⟩
  exact (checked_calls_fatal_climb_ignored.2.1 { envOk with statTmp := Except.error Errno.EACCES }
    ⟨23, 5, true⟩ Errno.EACCES rfl rfl (by decide)).1

set_option maxRecDepth 10000 in
/-- C9: when the identity check has already established a successful
escape (the post-escape snapshot of "/" differs from the baseline) but
`opendir("/")` for the confirmation listing fails, the program terminates
with a non-zero status and never reaches the exec. -/
theorem opendir_fail_fatal_after_escape :
    ∀ env s1 b fd s2 e,
      env.statRoot1 = Except.ok s1 → env.statTmp = Except.ok b →
      b.st_mode_isdir = true → env.openDot = Except.ok fd →
      env.chrootTmp = Except.ok () → env.fchdirRes = Except.ok () →
      env.statRoot2 = Except.ok s2 →
      ¬(s1.st_dev = s2.st_dev ∧ s1.st_ino = s2.st_ino) →
      env.opendirRoot = Except.error e →
      (run env).2 = Outcome.exited 1 ∧
      Ev.writeErr "Broken out of the chroot.\n" ∈ (run env).1 ∧
      Ev.sysExec ∉ (run env).1 := by
  intro env s1 b fd s2 e h1 h2 hb h3 h4 h5 h6 hne h7
  simp [-List.reduceReplicate, run, prepPhase, openDotPhase, chrootPhase, fchdirPhase, climbPhase, verifyPhase,
        listingPhase, fatal, NEED_FCHDIR_defined,
        h1, h2, hb, h3, h4, h5, h6, hne, h7, List.mem_replicate]

/-- C9 witness: the success-path run with `opendir("/")` failing. -/
theorem opendir_fail_fatal_after_escape_witness :
    (run { envOk with opendirRoot := Except.error Errno.EBADF }).2 = Outcome.exited 1 :=
  (opendir_fail_fatal_after_escape { envOk with opendirRoot := Except.error Errno.EBADF }
    ⟨23, 5, true⟩ ⟨23, 8, true⟩ 3 ⟨23, 2, true⟩ Errno.EBADF
    rfl rfl rfl rfl rfl rfl rfl (by decide) rfl).1

theorem chroot_fail_msg_ne_hint (e : Errno) :
    ("Failed to chroot to " ++ TEMP_DIR ++ " - " ++ strerror e ++ "\n") ≠
    "Not running as root. Breaking out of chroot works as root.\n" := by
  cases e <;> decide

/-- C7 counterexample: in the run `envPermRoot` the nested `chroot` fails
with `EPERM` (the confinement privilege is absent) while the effective
user id is 0, and the program exits non-zero with the fatal diagnostic but
without the explicit privilege hint — the hint is printed only when
`geteuid() != 0`, so the claim that the hint always accompanies a
privilege-failure is refuted. -/
theorem eperm_hint_requires_nonroot_euid_cex :
    envPermRoot.chrootTmp = Except.error Errno.EPERM ∧ envPermRoot.euid = 0 ∧
    (run envPermRoot).2 = Outcome.exited 1 ∧
    Ev.writeErr ("Failed to chroot to " ++ TEMP_DIR ++ " - " ++ strerror Errno.EPERM ++ "\n")
      ∈ (run envPermRoot).1 ∧
    Ev.writeErr "Not running as root. Breaking out of chroot works as root.\n"
      ∉ (run envPermRoot).1 :=
  ⟨rfl, rfl, rfl, by decide, by decide⟩

/-- C7 (amended): when the nested confinement set of step 4 fails, the
program terminates with a non-zero status, emits the fatal diagnostic with
the underlying error text, and invokes no subsequent step (no
working-directory restore, no climb, no re-confinement, no verification,
no exec); the explicit requires-root hint is additionally emitted exactly
when the effective user id is nonzero — with a root effective uid the
hint is omitted even if the failure is a missing-privilege `EPERM`. -/
theorem chroot_fail_fatal_hint_on_nonroot :
    ∀ env s1 b fd e,
      env.statRoot1 = Except.ok s1 → env.statTmp = Except.ok b →
      b.st_mode_isdir = true → env.openDot = Except.ok fd →
      env.chrootTmp = Except.error e →
      (run env).2 = Outcome.exited 1
      ∧ Ev.writeErr ("Failed to chroot to " ++ TEMP_DIR ++ " - " ++ strerror e ++ "\n")
          ∈ (run env).1
      ∧ (env.euid ≠ 0 →
          Ev.writeErr "Not running as root. Breaking out of chroot works as root.\n"
            ∈ (run env).1)
      ∧ (env.euid = 0 →
          Ev.writeErr "Not running as root. Breaking out of chroot works as root.\n"
            ∉ (run env).1)
      ∧ Ev.sysFchdir ∉ (run env).1 ∧ Ev.sysChdirUp ∉ (run env).1
      ∧ Ev.sysChrootDot ∉ (run env).1 ∧ Ev.sysStatRoot2 ∉ (run env).1
      ∧ Ev.sysExec ∉ (run env).1 := by
  intro env s1 b fd e h1 h2 hb h3 h4
  rcases eq_or_ne env.euid 0 with he | he <;>
    simp [run, prepPhase, openDotPhase, chrootPhase, fatal, NEED_FCHDIR_defined,
          h1, h2, hb, h3, h4, he, chroot_fail_msg_ne_hint e, (chroot_fail_msg_ne_hint e).symm]

/-- C7 amended witness: a non-root run whose nested `chroot` fails with
`EPERM` exits non-zero, prints the diagnostic and prints the hint. -/
theorem chroot_fail_fatal_hint_on_nonroot_witness :
    (run { envOk with chrootTmp := Except.error Errno.EPERM, euid := 1000 }).2 =
      Outcome.exited 1 ∧
    Ev.writeErr "Not running as root. Breaking out of chroot works as root.\n"
      ∈ (run { envOk with chrootTmp := Except.error Errno.EPERM, euid := 1000 }).1 := by
  have h := chroot_fail_fatal_hint_on_nonroot
    { envOk with chrootTmp := Except.error Errno.EPERM, euid := 1000 }
    ⟨23, 5, true⟩ ⟨23, 8, true⟩ 3 Errno.EPERM rfl rfl rfl rfl rfl
  exact ⟨h.1, h.2.2.1 (by decide)⟩

set_option maxRecDepth 10000 in
/-- C8: although `NEED_FCHDIR` is defined to 0, the `#ifdef` tests
definedness, so the working-directory branch is always active: the
program opens a read-only handle to "." (and fails fatally when that open
fails, before attempting any confinement change), performs the nested
confinement immediately after the open, restores the working directory
from the handle immediately after the confinement, and closes the handle
right after that single use — the four calls are adjacent in the trace. -/
theorem fchdir_branch_always_active :
    NEED_FCHDIR = 0
  ∧ NEED_FCHDIR_defined = true
  ∧ (∀ env s1 b e, env.statRoot1 = Except.ok s1 → env.statTmp = Except.ok b →
      b.st_mode_isdir = true → env.openDot = Except.error e →
      (run env).2 = Outcome.exited 1 ∧ Ev.sysChrootTmp ∉ (run env).1)
  ∧ (∀ env s1 b fd, env.statRoot1 = Except.ok s1 → env.statTmp = Except.ok b →
      b.st_mode_isdir = true → env.openDot = Except.ok fd →
      env.chrootTmp = Except.ok () → env.fchdirRes = Except.ok () →
      ∃ p s, (run env).1 =
        p ++ [Ev.sysOpenDot, Ev.sysChrootTmp, Ev.sysFchdir, Ev.sysClose] ++ s) := by
  refine ⟨rfl, rfl, ?_, ?_⟩
  · intro env s1 b e h1 h2 hb h3
    simp [run, prepPhase, openDotPhase, fatal, NEED_FCHDIR_defined, h1, h2, hb, h3]
  · intro env s1 b fd h1 h2 hb h3 h4 h5
    refine ⟨[Ev.sysStatRoot1, Ev.sysStatTmp], (climbPhase env s1).1, ?_⟩
    simp [run, prepPhase, openDotPhase, chrootPhase, fchdirPhase, NEED_FCHDIR_defined,
          h1, h2, hb, h3, h4, h5]

/-- C8 witness: the all-success run exhibits the adjacent four calls, and
a run whose `open(".")` fails is fatal before any confinement change. -/
theorem fchdir_branch_always_active_witness :
    (∃ p s, (run envOk).1 =
      p ++ [Ev.sysOpenDot, Ev.sysChrootTmp, Ev.sysFchdir, Ev.sysClose] ++ s) ∧
    (run { envOk with openDot := Except.error Errno.EBADF }).2 = Outcome.exited 1 := by
  refine ⟨fchdir_branch_always_active.2.2.2 envOk ⟨23, 5, true⟩ ⟨23, 8, true⟩ 3
    rfl rfl rfl rfl rfl rfl, ?_⟩
  exact (fchdir_branch_always_active.2.2.1 { envOk with openDot := Except.error Errno.EBADF }
    ⟨23, 5, true⟩ ⟨23, 8, true⟩ Errno.EBADF rfl rfl rfl rfl).1

theorem breakfail_ne_opendir_fail_msg (e : Errno) :
    "Breaking out of the chroot did not work.\n" ≠
    ("Failed to opendir /: " ++ strerror e ++ "\n") := by
  cases e <;> decide

theorem breakfail_ne_exec_fail_msg (e : Errno) :
    "Breaking out of the chroot did not work.\n" ≠
    ("Failed to exec - " ++ strerror e ++ "\n") := by
  cases e <;> decide

theorem opendir_fail_msg_ne_breakfail (e : Errno) :
    ("Failed to opendir /: " ++ strerror e ++ "\n") ≠
    "Breaking out of the chroot did not work.\n" := by
  cases e <;> decide

theorem exec_fail_msg_ne_breakfail (e : Errno) :
    ("Failed to exec - " ++ strerror e ++ "\n") ≠
    "Breaking out of the chroot did not work.\n" := by
  cases e <;> decide

set_option maxRecDepth 10000 in
set_option maxHeartbeats 1000000 in
/-- C2: in a run where every system call succeeds, the program reports
success exactly when the post-escape identity of "/" differs from the
baseline snapshot: when device id and node id are both identical it exits
non-zero with the escape-ineffective diagnostic, which is distinct from
every system-call failure diagnostic; when either differs it proceeds to
the success path (the success notice, never the failure diagnostic). -/
theorem escape_verdict_by_root_identity :
    ∀ env s1 b fd s2,
      env.statRoot1 = Except.ok s1 → env.statTmp = Except.ok b → b.st_mode_isdir = true →
      env.openDot = Except.ok fd → env.chrootTmp = Except.ok () →
      env.fchdirRes = Except.ok () → env.statRoot2 = Except.ok s2 →
      ((s1.st_dev = s2.st_dev ∧ s1.st_ino = s2.st_ino) →
        (run env).2 = Outcome.exited 1
        ∧ Ev.writeErr "Breaking out of the chroot did not work.\n" ∈ (run env).1
        ∧ Ev.writeErr "Broken out of the chroot.\n" ∉ (run env).1
        ∧ ∀ e : Errno, "Breaking out of the chroot did not work.\n" ∉ sysFailMsgs e)
      ∧ (¬(s1.st_dev = s2.st_dev ∧ s1.st_ino = s2.st_ino) →
        Ev.writeErr "Broken out of the chroot.\n" ∈ (run env).1
        ∧ Ev.writeErr "Breaking out of the chroot did not work.\n" ∉ (run env).1) := by
  intro env s1 b fd s2 h1 h2 hb h3 h4 h5 h6
  constructor
  · intro hid
    refine ⟨?_, ?_, ?_, fun e => by cases e <;> decide⟩ <;>
      simp [-List.reduceReplicate, run, prepPhase, openDotPhase, chrootPhase, fchdirPhase, climbPhase, verifyPhase,
            fatal, NEED_FCHDIR_defined, h1, h2, hb, h3, h4, h5, h6, hid.1, hid.2,
            List.mem_replicate]
  · intro hne
    constructor
    · simp [-List.reduceReplicate, run, prepPhase, openDotPhase, chrootPhase, fchdirPhase, climbPhase, verifyPhase,
            fatal, NEED_FCHDIR_defined, h1, h2, hb, h3, h4, h5, h6, hne, List.mem_replicate]
    · cases ho : env.opendirRoot <;> cases hw : wantShell env.args <;> cases he : env.execRes <;>
        simp [-List.reduceReplicate, run, prepPhase, openDotPhase, chrootPhase, fchdirPhase, climbPhase, verifyPhase,
              listingPhase, shellPhase, fatal, NEED_FCHDIR_defined,
              h1, h2, hb, h3, h4, h5, h6, hne, ho, hw, he, List.mem_replicate,
              opendir_fail_msg_ne_breakfail, exec_fail_msg_ne_breakfail,
              breakfail_ne_opendir_fail_msg, breakfail_ne_exec_fail_msg]

/-- C2 witness: a run with identical snapshots exits non-zero with the
distinct diagnostic; the all-success run with differing snapshots reports
success. -/
theorem escape_verdict_by_root_identity_witness :
    (run { envOk with statRoot2 := Except.ok ⟨23, 5, true⟩ }).2 = Outcome.exited 1 ∧
    Ev.writeErr "Broken out of the chroot.\n" ∈ (run envOk).1 := by
  constructor
  · exact ((escape_verdict_by_root_identity { envOk with statRoot2 := Except.ok ⟨23, 5, true⟩ }
      ⟨23, 5, true⟩ ⟨23, 8, true⟩ 3 ⟨23, 5, true⟩ rfl rfl rfl rfl rfl rfl rfl).1
      (by decide)).1
  · exact ((escape_verdict_by_root_identity envOk
      ⟨23, 5, true⟩ ⟨23, 8, true⟩ 3 ⟨23, 2, true⟩ rfl rfl rfl rfl rfl rfl rfl).2
      (by decide)).1

set_option maxRecDepth 10000 in
/-- C6: the shell handoff is suppressed exactly when the first positional
argument equals the literal "--no-shell" (the guard of line 179 is false
iff `argv[1]` is that literal); in a successful run, suppression yields a
zero exit status with no exec, and any other argument value or its absence
leads to the exec, whose failure exits non-zero. -/
theorem no_shell_flag_iff_suppressed :
    (∀ args : List String, wantShell args = false ↔ args.get? 1 = some "--no-shell")
  ∧ (∀ env s1 b fd s2 entries,
      env.statRoot1 = Except.ok s1 → env.statTmp = Except.ok b → b.st_mode_isdir = true →
      env.openDot = Except.ok fd → env.chrootTmp = Except.ok () →
      env.fchdirRes = Except.ok () → env.statRoot2 = Except.ok s2 →
      ¬(s1.st_dev = s2.st_dev ∧ s1.st_ino = s2.st_ino) →
      env.opendirRoot = Except.ok entries →
      ((env.args.get? 1 = some "--no-shell" →
          (run env).2 = Outcome.exited 0 ∧ Ev.sysExec ∉ (run env).1)
       ∧ (env.args.get? 1 ≠ some "--no-shell" →
          Ev.sysExec ∈ (run env).1
          ∧ (env.execRes = Except.ok () → (run env).2 = Outcome.execed)
          ∧ (∀ e, env.execRes = Except.error e → (run env).2 = Outcome.exited 1)))) := by
  refine ⟨wantShell_eq_false_iff, ?_⟩
  intro env s1 b fd s2 entries h1 h2 hb h3 h4 h5 h6 hne h7
  constructor
  · intro hflag
    have hw : wantShell env.args = false := (wantShell_eq_false_iff env.args).mpr hflag
    simp [-List.reduceReplicate, run, prepPhase, openDotPhase, chrootPhase, fchdirPhase, climbPhase, verifyPhase,
          listingPhase, shellPhase, fatal, NEED_FCHDIR_defined,
          h1, h2, hb, h3, h4, h5, h6, hne, h7, hw, List.mem_replicate]
  · intro hns
    have hw : wantShell env.args = true := by
      cases h : wantShell env.args
      · exact absurd ((wantShell_eq_false_iff env.args).mp h) hns
      · rfl
    refine ⟨?_, ?_, ?_⟩
    · cases he : env.execRes <;>
        simp [-List.reduceReplicate, run, prepPhase, openDotPhase, chrootPhase, fchdirPhase, climbPhase, verifyPhase,
              listingPhase, shellPhase, fatal, NEED_FCHDIR_defined,
              h1, h2, hb, h3, h4, h5, h6, hne, h7, hw, he]
    · intro he
      simp [-List.reduceReplicate, run, prepPhase, openDotPhase, chrootPhase, fchdirPhase, climbPhase, verifyPhase,
            listingPhase, shellPhase, fatal, NEED_FCHDIR_defined,
            h1, h2, hb, h3, h4, h5, h6, hne, h7, hw, he]
    · intro e he
      simp [-List.reduceReplicate, run, prepPhase, openDotPhase, chrootPhase, fchdirPhase, climbPhase, verifyPhase,
            listingPhase, shellPhase, fatal, NEED_FCHDIR_defined,
            h1, h2, hb, h3, h4, h5, h6, hne, h7, hw, he]

/-- C6 witness: with "--no-shell" as the first positional argument the
successful run returns status zero without an exec; without arguments it
ends in the exec. -/
theorem no_shell_flag_iff_suppressed_witness :
    (run { envOk with args := ["chbreak", "--no-shell"] }).2 = Outcome.exited 0 ∧
    (run envOk).2 = Outcome.execed := by
  constructor
  · exact (((no_shell_flag_iff_suppressed.2 { envOk with args := ["chbreak", "--no-shell"] }
      ⟨23, 5, true⟩ ⟨23, 8, true⟩ 3 ⟨23, 2, true⟩ ["bin", "etc", "var"]
      rfl rfl rfl rfl rfl rfl rfl (by decide) rfl).1) rfl).1
  · exact (((no_shell_flag_iff_suppressed.2 envOk
      ⟨23, 5, true⟩ ⟨23, 8, true⟩ 3 ⟨23, 2, true⟩ ["bin", "etc", "var"]
      rfl rfl rfl rfl rfl rfl rfl (by decide) rfl).2) (by decide)).2.1 rfl

theorem pendingAtExec_cons_neutral (w f : Ev → Bool) (e : Ev)
    (he : e ≠ Ev.sysExec) (h1 : w e = false) (h2 : f e = false) (rest : List Ev) (p : Bool) :
    pendingAtExec w f (e :: rest) p = pendingAtExec w f rest p := by
  simp [pendingAtExec, he, h1, h2]

theorem pendingAtExec_append_neutral (w f : Ev → Bool) (l : List Ev)
    (h : ∀ e ∈ l, e ≠ Ev.sysExec ∧ w e = false ∧ f e = false) (rest : List Ev) (p : Bool) :
    pendingAtExec w f (l ++ rest) p = pendingAtExec w f rest p := by
  induction l with
  | nil => rfl
  | cons a l ih =>
    have ha := h a (List.mem_cons_self a l)
    simp only [List.cons_append, pendingAtExec, ha.1, ha.2.1, ha.2.2, if_false,
               Bool.false_eq_true, ite_false]
    exact ih fun e he => h e (List.mem_cons_of_mem a he)

theorem pendingAtExec_append_writes (w f : Ev → Bool) (l : List Ev)
    (h : ∀ e ∈ l, e ≠ Ev.sysExec ∧ w e = true) (rest : List Ev) :
    pendingAtExec w f (l ++ rest) true = pendingAtExec w f rest true := by
  induction l with
  | nil => rfl
  | cons a l ih =>
    have ha := h a (List.mem_cons_self a l)
    simp only [List.cons_append, pendingAtExec, ha.1, ha.2, if_false, ite_true,
               Bool.false_eq_true, ite_false]
    exact ih fun e he => h e (List.mem_cons_of_mem a he)

theorem bufferedOut_shellPhase (env : Env) (hw : wantShell env.args = true) (p : Bool) :
    pendingAtExec isWriteOut isFlushOut (shellPhase env).1 p = some p := by
  cases he : env.execRes <;>
    simp [shellPhase, fatal, hw, he, pendingAtExec, isWriteOut, isFlushOut]

theorem bufferedErr_shellPhase (env : Env) (hw : wantShell env.args = true) (p : Bool) :
    pendingAtExec isWriteErr isFlushErr (shellPhase env).1 p = some true := by
  cases he : env.execRes <;>
    simp [shellPhase, fatal, hw, he, pendingAtExec, isWriteErr, isFlushErr]

theorem entriesWrites_all_writeOut (entries : List String) :
    ∀ e ∈ entries.map (fun n => Ev.writeOut (n ++ "\n")),
      e ≠ Ev.sysExec ∧ isWriteOut e = true := by
  intro e he
  rcases List.mem_map.mp he with ⟨n, _, rfl⟩
  exact ⟨by simp, rfl⟩

theorem entriesWrites_all_err_neutral (entries : List String) :
    ∀ e ∈ entries.map (fun n => Ev.writeOut (n ++ "\n")),
      e ≠ Ev.sysExec ∧ isWriteErr e = false ∧ isFlushErr e = false := by
  intro e he
  rcases List.mem_map.mp he with ⟨n, _, rfl⟩
  exact ⟨by simp, rfl, rfl⟩

theorem bufferedOut_listingPhase (env : Env) (entries : List String)
    (ho : env.opendirRoot = Except.ok entries) (hw : wantShell env.args = true) (p : Bool) :
    pendingAtExec isWriteOut isFlushOut (listingPhase env).1 p = some true := by
  simp [listingPhase, ho, pendingAtExec, isWriteOut, isFlushOut,
        pendingAtExec_append_writes isWriteOut isFlushOut _ (entriesWrites_all_writeOut entries),
        bufferedOut_shellPhase env hw]

theorem bufferedErr_listingPhase (env : Env) (entries : List String)
    (ho : env.opendirRoot = Except.ok entries) (hw : wantShell env.args = true) (p : Bool) :
    pendingAtExec isWriteErr isFlushErr (listingPhase env).1 p = some true := by
  simp [listingPhase, ho, pendingAtExec, isWriteErr, isFlushErr,
        pendingAtExec_append_neutral isWriteErr isFlushErr _
          (entriesWrites_all_err_neutral entries),
        bufferedErr_shellPhase env hw]

theorem bufferedOut_verifyPhase (env : Env) (sbuf1 s2 : StatBuf)
    (h6 : env.statRoot2 = Except.ok s2)
    (hne : ¬(sbuf1.st_dev = s2.st_dev ∧ sbuf1.st_ino = s2.st_ino))
    (entries : List String) (ho : env.opendirRoot = Except.ok entries)
    (hw : wantShell env.args = true) (p : Bool) :
    pendingAtExec isWriteOut isFlushOut (verifyPhase env sbuf1).1 p = some true := by
  simp [verifyPhase, h6, hne, pendingAtExec, isWriteOut, isFlushOut,
        bufferedOut_listingPhase env entries ho hw]

theorem bufferedErr_verifyPhase (env : Env) (sbuf1 s2 : StatBuf)
    (h6 : env.statRoot2 = Except.ok s2)
    (hne : ¬(sbuf1.st_dev = s2.st_dev ∧ sbuf1.st_ino = s2.st_ino))
    (entries : List String) (ho : env.opendirRoot = Except.ok entries)
    (hw : wantShell env.args = true) (p : Bool) :
    pendingAtExec isWriteErr isFlushErr (verifyPhase env sbuf1).1 p = some true := by
  simp [verifyPhase, h6, hne, pendingAtExec, isWriteErr, isFlushErr,
        bufferedErr_listingPhase env entries ho hw]

theorem climbEvents_neutral (w f : Ev → Bool)
    (h1 : w Ev.sysChdirUp = false) (h2 : f Ev.sysChdirUp = false) :
    ∀ e ∈ List.replicate 1024 Ev.sysChdirUp, e ≠ Ev.sysExec ∧ w e = false ∧ f e = false := by
  intro e he
  rw [List.eq_of_mem_replicate he]
  exact ⟨by simp, h1, h2⟩

theorem bufferedOut_climbPhase (env : Env) (sbuf1 s2 : StatBuf)
    (h6 : env.statRoot2 = Except.ok s2)
    (hne : ¬(sbuf1.st_dev = s2.st_dev ∧ sbuf1.st_ino = s2.st_ino))
    (entries : List String) (ho : env.opendirRoot = Except.ok entries)
    (hw : wantShell env.args = true) (p : Bool) :
    pendingAtExec isWriteOut isFlushOut (climbPhase env sbuf1).1 p = some true := by
  simp only [climbPhase, List.append_assoc]
  rw [pendingAtExec_append_neutral isWriteOut isFlushOut
        (List.replicate 1024 Ev.sysChdirUp)
        (climbEvents_neutral isWriteOut isFlushOut rfl rfl)]
  simp [pendingAtExec, isWriteOut, isFlushOut,
        bufferedOut_verifyPhase env sbuf1 s2 h6 hne entries ho hw]

theorem bufferedErr_climbPhase (env : Env) (sbuf1 s2 : StatBuf)
    (h6 : env.statRoot2 = Except.ok s2)
    (hne : ¬(sbuf1.st_dev = s2.st_dev ∧ sbuf1.st_ino = s2.st_ino))
    (entries : List String) (ho : env.opendirRoot = Except.ok entries)
    (hw : wantShell env.args = true) (p : Bool) :
    pendingAtExec isWriteErr isFlushErr (climbPhase env sbuf1).1 p = some true := by
  simp only [climbPhase, List.append_assoc]
  rw [pendingAtExec_append_neutral isWriteErr isFlushErr
        (List.replicate 1024 Ev.sysChdirUp)
        (climbEvents_neutral isWriteErr isFlushErr rfl rfl)]
  simp [pendingAtExec, isWriteErr, isFlushErr,
        bufferedErr_verifyPhase env sbuf1 s2 h6 hne entries ho hw]

set_option maxRecDepth 10000 in
/-- C4 counterexample: the all-success run `envOk` reaches the exec, yet
at the exec both the output stream and the error stream hold unflushed
data — the real-root directory listing was written to the output stream
after its only flush (line 151 precedes the listing of lines 173-175),
and the shell notice was written to the error stream after its only flush
(line 161 precedes line 180) — refuting the claim that each stream is
flushed after its last write and before the exec. -/
theorem exec_reached_with_unflushed_output_cex :
    Ev.sysExec ∈ (run envOk).1 ∧
    bufferedOutAtExec (run envOk).1 = some true ∧
    bufferedErrAtExec (run envOk).1 = some true :=
  ⟨by decide, rfl, rfl⟩

set_option maxRecDepth 10000 in
/-- C4 (amended): on every path reaching the exec, both streams are
indeed flushed at some point before the process-image replacement (the
`fflush(stdout)` of line 151 and the `fflush(stderr)` of line 161), but
not after their last writes: the output stream's flush precedes the
directory-listing writes and the error stream's flush precedes the shell
notice, so at the exec both streams hold unflushed data (the listing is
visible only if the exec'ed image flushes inherited buffers; the error
stream in practice survives because stderr is unbuffered by default). -/
theorem flushes_precede_exec_not_last_writes :
    ∀ env s1 b fd s2 entries,
      env.statRoot1 = Except.ok s1 → env.statTmp = Except.ok b → b.st_mode_isdir = true →
      env.openDot = Except.ok fd → env.chrootTmp = Except.ok () →
      env.fchdirRes = Except.ok () → env.statRoot2 = Except.ok s2 →
      ¬(s1.st_dev = s2.st_dev ∧ s1.st_ino = s2.st_ino) →
      env.opendirRoot = Except.ok entries → wantShell env.args = true →
      Ev.sysExec ∈ (run env).1
      ∧ Ev.flushOut ∈ (run env).1 ∧ Ev.flushErr ∈ (run env).1
      ∧ bufferedOutAtExec (run env).1 = some true
      ∧ bufferedErrAtExec (run env).1 = some true := by
  intro env s1 b fd s2 entries h1 h2 hb h3 h4 h5 h6 hne h7 hw
  have hrun : (run env).1 = Ev.sysStatRoot1 :: Ev.sysStatTmp :: Ev.sysOpenDot ::
      Ev.sysChrootTmp :: Ev.sysFchdir :: Ev.sysClose :: (climbPhase env s1).1 := by
    simp [run, prepPhase, openDotPhase, chrootPhase, fchdirPhase, NEED_FCHDIR_defined,
          h1, h2, hb, h3, h4, h5]
  refine ⟨?_, ?_, ?_, ?_, ?_⟩
  · cases he : env.execRes <;>
      simp [-List.reduceReplicate, hrun, climbPhase, verifyPhase, listingPhase, shellPhase, fatal,
            h6, hne, h7, hw, he, List.mem_replicate]
  · simp [-List.reduceReplicate, hrun, climbPhase, verifyPhase, h6, hne, List.mem_replicate]
  · simp [-List.reduceReplicate, hrun, climbPhase, verifyPhase, h6, hne, List.mem_replicate]
  · rw [bufferedOutAtExec, hrun]
    simp [-List.reduceReplicate, pendingAtExec_cons_neutral, isWriteOut, isFlushOut,
          bufferedOut_climbPhase env s1 s2 h6 hne entries h7 hw]
  · rw [bufferedErrAtExec, hrun]
    simp [-List.reduceReplicate, pendingAtExec_cons_neutral, isWriteErr, isFlushErr,
          bufferedErr_climbPhase env s1 s2 h6 hne entries h7 hw]

/-- C4 amended witness: the all-success run with no arguments. -/
theorem flushes_precede_exec_not_last_writes_witness :
    Ev.flushOut ∈ (run envOk).1 ∧ bufferedOutAtExec (run envOk).1 = some true ∧
    bufferedErrAtExec (run envOk).1 = some true := by
  have h := flushes_precede_exec_not_last_writes envOk
    ⟨23, 5, true⟩ ⟨23, 8, true⟩ 3 ⟨23, 2, true⟩ ["bin", "etc", "var"]
    rfl rfl rfl rfl rfl rfl rfl (by decide) rfl rfl
  exact ⟨h.2.1, h.2.2.2.1, h.2.2.2.2⟩
